import Mathlib

/-!
Verification of the identity/access core of the waste-collection backend
(`backend/app/utils/error_catalog.py`, `backend/app/utils/jwt_helper.py`,
`backend/app/api/auth.py`, `backend/app/schemas.py`, `backend/app/main.py`).

Pure Python functions are embedded as Lean functions; Python dicts become
association lists with Python `dict.update` / `dict.get` semantics; the
behaviour of the external PyJWT and passlib/bcrypt libraries, which is not
part of this repository, is modelled from the spec where noted.
-/

set_option autoImplicit false

/-- A JSON-style value stored in a Python dict (token claims are strings,
the expiry is serialised as an integer timestamp). -/
inductive PyVal where
  | str (s : String)
  | int (n : Int)
  deriving DecidableEq, Repr

/-- A Python dict with string keys, as an association list in insertion order. -/
abbrev PyDict := List (String × PyVal)

/-- `d.get(k)`: first value bound to `k`, if any. -/
def dictGet (d : PyDict) (k : String) : Option PyVal :=
  (d.find? (fun p => p.1 == k)).map (fun p => p.2)

/-- `d.update({k: v})` for a single key: replace the value in place when the
key is present (keeping its position), otherwise append the binding. -/
def dictSet (d : PyDict) (k : String) (v : PyVal) : PyDict :=
  if d.any (fun p => p.1 == k) then
    d.map (fun p => if p.1 == k then (k, v) else p)
  else
    d ++ [(k, v)]

/-- An entry of the error catalog: HTTP status plus human-readable message
(`{"code": ..., "message": ...}` in `error_catalog.py`). -/
structure ErrEntry where
  code : Nat
  message : String
  deriving DecidableEq, Repr

namespace ErrorCatalog

/-- The `ErrorCatalog.ERRORS` dictionary of `backend/app/utils/error_catalog.py`,
in source order. -/
def ERRORS : List (String × ErrEntry) :=
  [ ("AUTH_001", ⟨401, "Invalid credentials"⟩)
  , ("AUTH_002", ⟨401, "Unauthorized access"⟩)
  , ("USER_001", ⟨400, "User already exists"⟩)
  , ("USER_002", ⟨404, "User not found"⟩)
  , ("BATCH_001", ⟨400, "Invalid batch data"⟩)
  , ("BATCH_002", ⟨400, "Invalid material type"⟩)
  , ("BATCH_003", ⟨404, "Batch not found"⟩)
  , ("HOTSPOT_001", ⟨400, "Invalid hotspot coordinates"⟩)
  , ("HOTSPOT_002", ⟨404, "Hotspot not found"⟩)
  , ("ROUTE_001", ⟨400, "Insufficient hotspots for routing"⟩)
  , ("VALIDATION_001", ⟨422, "Data validation failed"⟩) ]

/-- `ErrorCatalog.get_error`: `ERRORS.get(error_code, {"code": 500,
"message": "Unknown error"})`. -/
def get_error (error_code : String) : ErrEntry :=
  ((ERRORS.find? (fun p => p.1 == error_code)).map (fun p => p.2)).getD
    ⟨500, "Unknown error"⟩

end ErrorCatalog

/-- An injective numeric code for a list of characters (base `2 ^ 32 + 1`,
digits `c.toNat + 1`); used to build the modelled cryptographic digests. -/
def strVal : List Char → Nat
  | [] => 0
  | c :: cs => (c.toNat + 1) + 4294967297 * strVal cs

/-- Numeric code of a string. -/
def strCode (s : String) : Nat := strVal s.data

/-- Numeric code of a `PyVal`. -/
def pyValCode : PyVal → Nat
  | .str s => 2 * strCode s
  | .int n => 2 * n.natAbs + (if n < 0 then 3 else 1)

/-- Numeric code of a `PyDict`, folding the entries through `Nat.pair`. -/
def dictCode : PyDict → Nat
  | [] => 0
  | (k, v) :: rest => Nat.pair (Nat.pair (strCode k) (pyValCode v)) (dictCode rest) + 1

namespace Jwt

/-- A JWT as handled by PyJWT: a (plaintext, merely base64-encoded) payload
together with an HMAC signature over it.  Decoding does not hide the payload;
only the signature binds it to the secret. -/
structure Token where
  payload : PyDict
  sig : Nat
  deriving DecidableEq, Repr

/-- Modelled from the spec: the HMAC-SHA256 signature (`ALGORITHM = "HS256"`,
a fixed symmetric scheme with no algorithm negotiation) computed by the
external PyJWT library, abstracted as a concrete function of the secret and
the serialised payload. -/
def macSign (secret : String) (payload : PyDict) : Nat :=
  Nat.pair (strCode secret) (dictCode payload)

/-- `jwt.encode(payload, secret, algorithm="HS256")`: serialise the payload
and sign it with the secret.  Modelled from the spec: the external PyJWT
encoder; datetimes (the `exp` claim) are already represented as integer
timestamps in `PyVal`. -/
def encode (payload : PyDict) (secret : String) : Token :=
  { payload := payload, sig := macSign secret payload }

/-- Result of `jwt.decode`: the payload, or one of the two failure kinds the
callers catch (`jwt.ExpiredSignatureError`, `jwt.InvalidTokenError`). -/
inductive DecodeResult where
  | ok (payload : PyDict)
  | expired
  | invalid
  deriving DecidableEq, Repr

/-- `jwt.decode(token, secret, algorithms=["HS256"])` at time `now` (seconds).
Modelled from the spec: the external PyJWT decoder re-validates the signature
against the shared secret, rejecting a mismatch as `invalid`; a token is
usable only strictly before its expiry instant, so an `exp` claim with
`exp ≤ now` is rejected as `expired`; otherwise the embedded payload is
returned. -/
def decode (token : Token) (secret : String) (now : Int) : DecodeResult :=
  if token.sig ≠ macSign secret token.payload then
    .invalid
  else
    match dictGet token.payload "exp" with
    | some (.int exp) => if exp ≤ now then .expired else .ok token.payload
    | _ => .ok token.payload

end Jwt

namespace JwtHelper

/-- `ACCESS_TOKEN_EXPIRE_MINUTES = 30` (`jwt_helper.py` / `main.py`). -/
def ACCESS_TOKEN_EXPIRE_MINUTES : Int := 30

/-- `create_access_token(data, expires_delta)` of `jwt_helper.py` (the copy in
`main.py` is line-for-line identical).  `expires_delta` is an optional
`timedelta`, modelled as seconds; the Python truthiness test `if expires_delta:`
treats both `None` and a zero delta as falsy.  `datetime.utcnow()` is passed in
as `now` (seconds).  The function copies the caller's dict (`to_encode =
data.copy()`) and mutates only the copy; the second component of the result is
the caller's dict as the call leaves it. -/
def create_access_token (data : PyDict) (expires_delta : Option Int)
    (now : Int) (secret : String) : Jwt.Token × PyDict :=
  let to_encode := data
  let expire : Int :=
    match expires_delta with
    | some d => if d ≠ 0 then now + d else now + ACCESS_TOKEN_EXPIRE_MINUTES * 60
    | none => now + ACCESS_TOKEN_EXPIRE_MINUTES * 60
  let to_encode := dictSet to_encode "exp" (.int expire)
  (Jwt.encode to_encode secret, data)

/-- `verify_token(token)` of `jwt_helper.py`: a bare `jwt.decode`, propagating
the two exception kinds unchanged. -/
def verify_token (token : Jwt.Token) (secret : String) (now : Int) :
    Jwt.DecodeResult :=
  Jwt.decode token secret now

end JwtHelper

/-- An `HTTPException(status_code, detail)` raised by the request handlers. -/
structure HTTPError where
  status_code : Nat
  detail : String
  deriving DecidableEq, Repr

namespace AppMain

/-- `verify_token(token)` of `main.py`: `jwt.decode` with the two exception
kinds caught and turned into `HTTPException`s whose status comes from
`ErrorCatalog.get_error("AUTH_001")` and whose detail distinguishes the two
cases. -/
def verify_token (token : Jwt.Token) (secret : String) (now : Int) :
    Except HTTPError PyDict :=
  match Jwt.decode token secret now with
  | .ok payload => .ok payload
  | .expired => .error ⟨(ErrorCatalog.get_error "AUTH_001").code, "Token has expired"⟩
  | .invalid => .error ⟨(ErrorCatalog.get_error "AUTH_001").code, "Invalid token"⟩

end AppMain

/-- A stored password hash string, abstracted by its parse result under the
bcrypt format: either a recognised `$2b$...` hash carrying its embedded salt
and key-derivation output, or a string not in the recognised format/version.
Modelled from the spec: the parsing lives in the external passlib library. -/
inductive StoredHash where
  | bcrypt (salt digest : Nat)
  | malformed (raw : String)
  deriving DecidableEq, Repr

namespace Auth

/-- Modelled from the spec: the bcrypt key-derivation function of the external
passlib/bcrypt library, idealised as a collision-free function of the salt and
the password (the claims assert distinct passwords fail verification "with
overwhelming probability"; the idealisation makes that exact). -/
def bcryptKdf (salt : Nat) (password : String) : Nat :=
  Nat.pair salt (strCode password)

/-- `hash_password(password)` (`api/auth.py`): `pwd_context.hash(password)`
under the fixed `bcrypt` scheme.  The salt is internal and random in the
source; it is passed explicitly here. -/
def hash_password (salt : Nat) (password : String) : StoredHash :=
  .bcrypt salt (bcryptKdf salt password)

/-- `verify_password(plain_password, hashed_password)` (`api/auth.py`):
`pwd_context.verify`.  Modelled from the spec: re-hash the candidate under the
salt embedded in the stored hash and compare with the stored digest; a
malformed stored hash (wrong format/version) is treated as verification
failure, never as a crash. -/
def verify_password (plain_password : String) (hashed_password : StoredHash) :
    Bool :=
  match hashed_password with
  | .bcrypt salt digest => bcryptKdf salt plain_password == digest
  | .malformed _ => false

/-- A row of the `users` table (`models.py`): username and phone are unique
columns, the password is stored only as its hash. -/
structure UserRec where
  id : Nat
  username : String
  phone : String
  password_hash : StoredHash
  role : String
  deriving DecidableEq, Repr

/-- The body of a `POST /register` request (`UserRegister`). -/
structure RegisterReq where
  username : String
  phone : String
  password : String
  role : String
  deriving DecidableEq, Repr

/-- Outcome of the `register` handler: an `HTTPException` raised before the
store is touched, an uncaught store-level integrity failure out of
`db.commit()`, or the committed store together with the created row. -/
inductive RegOutcome where
  | httpError (e : HTTPError)
  | storeError
  | created (db : List UserRec) (user : UserRec)
  deriving DecidableEq, Repr

/-- `register(user_data, db)` (`api/auth.py`): query the store for a row with
the same username and fail with `ErrorCatalog.get_error("USER_001")` if one
exists; otherwise hash the password, build the row and commit it.  Modelled
from the spec for the commit itself: the external store enforces the
`unique=True` constraints of `models.py`, so a commit that duplicates an
existing phone fails with a store-level integrity error, which the handler
does not catch. -/
def register (db : List UserRec) (req : RegisterReq) (salt newId : Nat) :
    RegOutcome :=
  if db.any (fun u => u.username == req.username) then
    let e := ErrorCatalog.get_error "USER_001"
    .httpError ⟨e.code, e.message⟩
  else
    let hashed := hash_password salt req.password
    let new_user : UserRec :=
      { id := newId, username := req.username, phone := req.phone
      , password_hash := hashed, role := req.role }
    if db.any (fun u => u.phone == req.phone) then
      .storeError
    else
      .created (db ++ [new_user]) new_user

/-- The body of a `POST /login` request (`UserLogin`). -/
structure LoginReq where
  username : String
  password : String
  deriving DecidableEq, Repr

/-- The success body of `login`: `{"access_token": ..., "token_type": "bearer"}`. -/
structure LoginOk where
  access_token : Jwt.Token
  token_type : String
  deriving DecidableEq, Repr

/-- `login(credentials, db)` (`api/auth.py`): look the username up in the
store; if no row exists or the password does not verify against the stored
hash, raise the `ErrorCatalog.get_error("AUTH_001")` error (one branch, one
message for both cases); otherwise mint a token over
`{"sub": str(user.id), "username": ..., "role": ...}` with a 30-minute
expiry. -/
def login (db : List UserRec) (credentials : LoginReq) (now : Int)
    (secret : String) : Except HTTPError LoginOk :=
  match db.find? (fun u => u.username == credentials.username) with
  | none =>
      let e := ErrorCatalog.get_error "AUTH_001"
      .error ⟨e.code, e.message⟩
  | some user =>
      if verify_password credentials.password user.password_hash then
        let claims : PyDict :=
          [ ("sub", .str (toString user.id))
          , ("username", .str user.username)
          , ("role", .str user.role) ]
        let access_token :=
          (JwtHelper.create_access_token claims
            (some (JwtHelper.ACCESS_TOKEN_EXPIRE_MINUTES * 60)) now secret).1
        .ok { access_token := access_token, token_type := "bearer" }
      else
        let e := ErrorCatalog.get_error "AUTH_001"
        .error ⟨e.code, e.message⟩

end Auth

namespace Schemas

/-- Python's `\d` for `str` patterns: any Unicode decimal digit (category
`Nd`).  Modelled from the spec: the digit test lives in the external `re`
module; the 62 `Nd` ranges below are those of Unicode 14.0 as shipped with
CPython 3.11, enumerated from `re.match` itself.  A strict superset of the
ASCII digits. -/
def pyIsDigit (c : Char) : Bool :=
  let n := c.toNat
  (0x30 <= n && n <= 0x39)
    || (0x660 <= n && n <= 0x669)
    || (0x6f0 <= n && n <= 0x6f9)
    || (0x7c0 <= n && n <= 0x7c9)
    || (0x966 <= n && n <= 0x96f)
    || (0x9e6 <= n && n <= 0x9ef)
    || (0xa66 <= n && n <= 0xa6f)
    || (0xae6 <= n && n <= 0xaef)
    || (0xb66 <= n && n <= 0xb6f)
    || (0xbe6 <= n && n <= 0xbef)
    || (0xc66 <= n && n <= 0xc6f)
    || (0xce6 <= n && n <= 0xcef)
    || (0xd66 <= n && n <= 0xd6f)
    || (0xde6 <= n && n <= 0xdef)
    || (0xe50 <= n && n <= 0xe59)
    || (0xed0 <= n && n <= 0xed9)
    || (0xf20 <= n && n <= 0xf29)
    || (0x1040 <= n && n <= 0x1049)
    || (0x1090 <= n && n <= 0x1099)
    || (0x17e0 <= n && n <= 0x17e9)
    || (0x1810 <= n && n <= 0x1819)
    || (0x1946 <= n && n <= 0x194f)
    || (0x19d0 <= n && n <= 0x19d9)
    || (0x1a80 <= n && n <= 0x1a89)
    || (0x1a90 <= n && n <= 0x1a99)
    || (0x1b50 <= n && n <= 0x1b59)
    || (0x1bb0 <= n && n <= 0x1bb9)
    || (0x1c40 <= n && n <= 0x1c49)
    || (0x1c50 <= n && n <= 0x1c59)
    || (0xa620 <= n && n <= 0xa629)
    || (0xa8d0 <= n && n <= 0xa8d9)
    || (0xa900 <= n && n <= 0xa909)
    || (0xa9d0 <= n && n <= 0xa9d9)
    || (0xa9f0 <= n && n <= 0xa9f9)
    || (0xaa50 <= n && n <= 0xaa59)
    || (0xabf0 <= n && n <= 0xabf9)
    || (0xff10 <= n && n <= 0xff19)
    || (0x104a0 <= n && n <= 0x104a9)
    || (0x10d30 <= n && n <= 0x10d39)
    || (0x11066 <= n && n <= 0x1106f)
    || (0x110f0 <= n && n <= 0x110f9)
    || (0x11136 <= n && n <= 0x1113f)
    || (0x111d0 <= n && n <= 0x111d9)
    || (0x112f0 <= n && n <= 0x112f9)
    || (0x11450 <= n && n <= 0x11459)
    || (0x114d0 <= n && n <= 0x114d9)
    || (0x11650 <= n && n <= 0x11659)
    || (0x116c0 <= n && n <= 0x116c9)
    || (0x11730 <= n && n <= 0x11739)
    || (0x118e0 <= n && n <= 0x118e9)
    || (0x11950 <= n && n <= 0x11959)
    || (0x11c50 <= n && n <= 0x11c59)
    || (0x11d50 <= n && n <= 0x11d59)
    || (0x11da0 <= n && n <= 0x11da9)
    || (0x16a60 <= n && n <= 0x16a69)
    || (0x16ac0 <= n && n <= 0x16ac9)
    || (0x16b50 <= n && n <= 0x16b59)
    || (0x1d7ce <= n && n <= 0x1d7ff)
    || (0x1e140 <= n && n <= 0x1e149)
    || (0x1e2f0 <= n && n <= 0x1e2f9)
    || (0x1e950 <= n && n <= 0x1e959)
    || (0x1fbf0 <= n && n <= 0x1fbf9)

/-- `re.match(r"^\+216\d{8}$", v)` stepping through `n` remaining `\d`
repetitions: after the digits, `$` matches at the end of the string or just
before a newline that ends the string (Python non-MULTILINE semantics). -/
def matchDigitsEnd : List Char → Nat → Bool
  | l, 0 => l == [] || l == ['\n']
  | [], _ + 1 => false
  | c :: cs, n + 1 => pyIsDigit c && matchDigitsEnd cs n

/-- Whether `re.match(r"^\+216\d{8}$", v)` succeeds on `v` (as a character
list): the literal `+216`, then eight digits, then `$`. -/
def pyPhoneMatch : List Char → Bool
  | c1 :: c2 :: c3 :: c4 :: rest =>
      c1 == '+' && c2 == '2' && c3 == '1' && c4 == '6' && matchDigitsEnd rest 8
  | _ => false

/-- `UserRegister.validate_phone` (`schemas.py`): return the value when the
regex matches, otherwise raise `ValueError` (surfaced by the framework as a
422 validation failure). -/
def validate_phone (v : String) : Except String String :=
  if pyPhoneMatch v.data then .ok v
  else .error "Phone must be a valid Tunisia number (format: +216XXXXXXXXX)"

/-- The acceptance shape as the spec words it — the literal `+216` followed
by exactly eight digits and nothing else; stated for comparison with
`pyPhoneMatch`, which embeds the source regex under Python semantics. -/
def specPhoneShape (s : String) : Bool :=
  match s.data with
  | c1 :: c2 :: c3 :: c4 :: rest =>
      c1 == '+' && c2 == '2' && c3 == '1' && c4 == '6' &&
        rest.length == 8 && rest.all Char.isDigit
  | _ => false

end Schemas

/-! ## Helper lemmas -/

theorem strVal_inj : ∀ (l1 l2 : List Char), strVal l1 = strVal l2 → l1 = l2 := by
  intro l1
  induction l1 with
  | nil =>
    intro l2 h
    cases l2 with
    | nil => rfl
    | cons d ds => simp [strVal] at h; omega
  | cons c cs ih =>
    intro l2 h
    cases l2 with
    | nil => simp [strVal] at h
    | cons d ds =>
      simp only [strVal] at h
      have hc : c.toNat < 4294967296 := c.val.val.isLt
      have hd : d.toNat < 4294967296 := d.val.val.isLt
      have h1 : c.toNat = d.toNat ∧ strVal cs = strVal ds := by omega
      have hcd : c = d := by
        have h2 := congrArg Char.ofNat h1.1
        rwa [Char.ofNat_toNat, Char.ofNat_toNat] at h2
      rw [hcd, ih ds h1.2]

theorem strCode_inj (s1 s2 : String) (h : strCode s1 = strCode s2) : s1 = s2 := by
  apply String.ext
  exact strVal_inj _ _ h

theorem Nat.xor_one_ne (n : Nat) : n ^^^ 1 ≠ n := by
  intro h
  have h0 := congrArg (fun m => Nat.testBit m 0) h
  simp [Nat.testBit_xor] at h0
  omega

theorem find?_map_dictSet (d : PyDict) (k : String) (v : PyVal) :
    (d.map (fun p => if p.1 == k then (k, v) else p)).find? (fun p => p.1 == k) =
      if d.any (fun p => p.1 == k) then some (k, v) else none := by
  induction d with
  | nil => rfl
  | cons a t ih =>
    rw [List.map_cons, List.any_cons]
    by_cases ha : a.1 = k
    · rw [if_pos (by simpa using ha)]
      rw [List.find?_cons_of_pos (p := fun p => p.1 == k) (a := (k, v)) _ (by simp)]
      simp [ha]
    · rw [if_neg (by simpa using ha)]
      rw [List.find?_cons_of_neg (p := fun p => p.1 == k) (a := a) _ (by simpa using ha)]
      rw [ih]
      have hb : (a.1 == k) = false := by simp [ha]
      rw [hb, Bool.false_or]

theorem find?_append_dictSet (d : PyDict) (k : String) (v : PyVal)
    (h : d.any (fun p => p.1 == k) = false) :
    (d ++ [(k, v)]).find? (fun p => p.1 == k) = some (k, v) := by
  induction d with
  | nil =>
    rw [List.nil_append]
    rw [List.find?_cons_of_pos (p := fun p => p.1 == k) (a := (k, v)) _ (by simp)]
  | cons a t ih =>
    rw [List.any_cons, Bool.or_eq_false_iff] at h
    rw [List.cons_append]
    rw [List.find?_cons_of_neg (p := fun p => p.1 == k) (a := a) _ (by simp [h.1])]
    exact ih h.2

theorem dictGet_dictSet_self (d : PyDict) (k : String) (v : PyVal) :
    dictGet (dictSet d k v) k = some v := by
  unfold dictGet dictSet
  by_cases h : d.any (fun p => p.1 == k)
  · rw [if_pos h, find?_map_dictSet, if_pos h]
    rfl
  · have h' : d.any (fun p => p.1 == k) = false := by
      rwa [Bool.not_eq_true] at h
    rw [if_neg h, find?_append_dictSet d k v h']
    rfl

theorem find?_map_dictSet_other (d : PyDict) (k k' : String) (v : PyVal)
    (h : k' ≠ k) :
    (d.map (fun p => if p.1 == k then (k, v) else p)).find? (fun p => p.1 == k') =
      d.find? (fun p => p.1 == k') := by
  induction d with
  | nil => rfl
  | cons a t ih =>
    rw [List.map_cons]
    by_cases ha : a.1 = k
    · rw [if_pos (by simpa using ha)]
      rw [List.find?_cons_of_neg (p := fun p => p.1 == k') (a := (k, v)) _ (by simp [Ne.symm h])]
      rw [List.find?_cons_of_neg (p := fun p => p.1 == k') (a := a) _ (by simp [ha, Ne.symm h])]
      exact ih
    · rw [if_neg (by simpa using ha)]
      cases hk' : (a.1 == k')
      · rw [List.find?_cons_of_neg (p := fun p => p.1 == k') (a := a) _ (by simp [hk'])]
        rw [List.find?_cons_of_neg (p := fun p => p.1 == k') (a := a) _ (by simp [hk'])]
        exact ih
      · rw [List.find?_cons_of_pos (p := fun p => p.1 == k') (a := a) _ hk']
        rw [List.find?_cons_of_pos (p := fun p => p.1 == k') (a := a) _ hk']

theorem find?_append_dictSet_other (d : PyDict) (k k' : String) (v : PyVal)
    (h : k' ≠ k) :
    (d ++ [(k, v)]).find? (fun p => p.1 == k') = d.find? (fun p => p.1 == k') := by
  induction d with
  | nil =>
    rw [List.nil_append]
    rw [List.find?_cons_of_neg (p := fun p => p.1 == k') (a := (k, v)) _ (by simp [Ne.symm h])]
  | cons a t ih =>
    rw [List.cons_append]
    cases hk' : (a.1 == k')
    · rw [List.find?_cons_of_neg (p := fun p => p.1 == k') (a := a) _ (by simp [hk'])]
      rw [List.find?_cons_of_neg (p := fun p => p.1 == k') (a := a) _ (by simp [hk'])]
      exact ih
    · rw [List.find?_cons_of_pos (p := fun p => p.1 == k') (a := a) _ hk']
      rw [List.find?_cons_of_pos (p := fun p => p.1 == k') (a := a) _ hk']

theorem dictGet_dictSet_other (d : PyDict) (k k' : String) (v : PyVal)
    (h : k' ≠ k) :
    dictGet (dictSet d k v) k' = dictGet d k' := by
  unfold dictGet dictSet
  by_cases hany : d.any (fun p => p.1 == k)
  · rw [if_pos hany, find?_map_dictSet_other d k k' v h]
  · rw [if_neg hany, find?_append_dictSet_other d k k' v h]

theorem Jwt.decode_encode (payload : PyDict) (secret : String) (now : Int) :
    Jwt.decode (Jwt.encode payload secret) secret now =
      match dictGet payload "exp" with
      | some (.int exp) => if exp ≤ now then .expired else .ok payload
      | _ => .ok payload := by
  simp [Jwt.decode, Jwt.encode]

/-! ## Claim theorems -/

/-- C2: `ErrorCatalog.get_error` realises the fixed table — each of the eleven
symbolic codes maps to its listed status and message (in particular
`AUTH_001 ↦ {401, "Invalid credentials"}`), and every code outside the table
maps to the fixed default `{500, "Unknown error"}`; the lookup is a total
function, so it never fails. -/
theorem C2_error_catalog_table :
    (ErrorCatalog.get_error "AUTH_001" = ⟨401, "Invalid credentials"⟩
      ∧ ErrorCatalog.get_error "AUTH_002" = ⟨401, "Unauthorized access"⟩
      ∧ ErrorCatalog.get_error "USER_001" = ⟨400, "User already exists"⟩
      ∧ ErrorCatalog.get_error "USER_002" = ⟨404, "User not found"⟩
      ∧ ErrorCatalog.get_error "BATCH_001" = ⟨400, "Invalid batch data"⟩
      ∧ ErrorCatalog.get_error "BATCH_002" = ⟨400, "Invalid material type"⟩
      ∧ ErrorCatalog.get_error "BATCH_003" = ⟨404, "Batch not found"⟩
      ∧ ErrorCatalog.get_error "HOTSPOT_001" = ⟨400, "Invalid hotspot coordinates"⟩
      ∧ ErrorCatalog.get_error "HOTSPOT_002" = ⟨404, "Hotspot not found"⟩
      ∧ ErrorCatalog.get_error "ROUTE_001" = ⟨400, "Insufficient hotspots for routing"⟩
      ∧ ErrorCatalog.get_error "VALIDATION_001" = ⟨422, "Data validation failed"⟩)
    ∧ ∀ c : String,
        c ∉ ["AUTH_001", "AUTH_002", "USER_001", "USER_002", "BATCH_001",
             "BATCH_002", "BATCH_003", "HOTSPOT_001", "HOTSPOT_002",
             "ROUTE_001", "VALIDATION_001"] →
        ErrorCatalog.get_error c = ⟨500, "Unknown error"⟩ := by
  refine ⟨⟨rfl, rfl, rfl, rfl, rfl, rfl, rfl, rfl, rfl, rfl, rfl⟩, ?_⟩
  intro c h
  simp only [List.mem_cons, List.not_mem_nil, or_false, not_or] at h
  obtain ⟨h1, h2, h3, h4, h5, h6, h7, h8, h9, h10, h11⟩ := h
  have e1 : ("AUTH_001" == c) = false := by simp [Ne.symm h1]
  have e2 : ("AUTH_002" == c) = false := by simp [Ne.symm h2]
  have e3 : ("USER_001" == c) = false := by simp [Ne.symm h3]
  have e4 : ("USER_002" == c) = false := by simp [Ne.symm h4]
  have e5 : ("BATCH_001" == c) = false := by simp [Ne.symm h5]
  have e6 : ("BATCH_002" == c) = false := by simp [Ne.symm h6]
  have e7 : ("BATCH_003" == c) = false := by simp [Ne.symm h7]
  have e8 : ("HOTSPOT_001" == c) = false := by simp [Ne.symm h8]
  have e9 : ("HOTSPOT_002" == c) = false := by simp [Ne.symm h9]
  have e10 : ("ROUTE_001" == c) = false := by simp [Ne.symm h10]
  have e11 : ("VALIDATION_001" == c) = false := by simp [Ne.symm h11]
  simp [ErrorCatalog.get_error, ErrorCatalog.ERRORS, List.find?,
    e1, e2, e3, e4, e5, e6, e7, e8, e9, e10, e11]

/-- Witness for C2 at the concrete unknown code `"NOT_A_CODE"`. -/
theorem C2_error_catalog_table_witness :
    "NOT_A_CODE" ∉ ["AUTH_001", "AUTH_002", "USER_001", "USER_002", "BATCH_001",
        "BATCH_002", "BATCH_003", "HOTSPOT_001", "HOTSPOT_002",
        "ROUTE_001", "VALIDATION_001"]
    ∧ ErrorCatalog.get_error "NOT_A_CODE" = ⟨500, "Unknown error"⟩ :=
  ⟨by decide, C2_error_catalog_table.2 "NOT_A_CODE" (by decide)⟩

/-- C4: for every password `p`, `verify_password p (hash_password p)` is true,
and for every pair of distinct passwords, verifying one against the hash of
the other is false (the internal random salt is explicit; the modelled
key-derivation is collision-free, making the "overwhelming probability"
clause exact). -/
theorem C4_hash_verify_roundtrip (salt : Nat) (p p1 p2 : String)
    (h : p1 ≠ p2) :
    Auth.verify_password p (Auth.hash_password salt p) = true
    ∧ Auth.verify_password p1 (Auth.hash_password salt p2) = false := by
  constructor
  · simp [Auth.verify_password, Auth.hash_password]
  · simp only [Auth.verify_password, Auth.hash_password, Auth.bcryptKdf,
      beq_eq_false_iff_ne, ne_eq]
    intro hEq
    have hs : strCode p1 = strCode p2 :=
      (Nat.pair_eq_pair.mp hEq).2
    exact h (strCode_inj p1 p2 hs)

/-- Witness for C4 at `p = "secret1"`, `p1 = "secret1"`, `p2 = "secret2"`,
salt 7. -/
theorem C4_hash_verify_roundtrip_witness :
    ("secret1" : String) ≠ "secret2"
    ∧ Auth.verify_password "secret1" (Auth.hash_password 7 "secret1") = true
    ∧ Auth.verify_password "secret1" (Auth.hash_password 7 "secret2") = false :=
  ⟨by decide, (C4_hash_verify_roundtrip 7 "secret1" "secret1" "secret2" (by decide)).1,
    (C4_hash_verify_roundtrip 7 "secret1" "secret1" "secret2" (by decide)).2⟩

/-- C7: for every plaintext password and every malformed stored hash (a string
not in the recognised bcrypt format/version), `verify_password` returns
`false` — a verification failure, not a crash; `verify_password` is a total
function into `Bool`, so every exit path is a defined value. -/
theorem C7_malformed_hash_fails (p raw : String) :
    Auth.verify_password p (.malformed raw) = false := by
  simp [Auth.verify_password]

/-- C10: issuing a token leaves the caller's claims dict unchanged — the
second component of `create_access_token` is the caller's dict as the call
leaves it and equals the input, while the `exp` field is added only to the
internal copy that becomes the token payload. -/
theorem C10_create_access_token_frame (data : PyDict) (expires_delta : Option Int)
    (now : Int) (secret : String) :
    (JwtHelper.create_access_token data expires_delta now secret).2 = data
    ∧ ∃ e : Int, dictGet
        (JwtHelper.create_access_token data expires_delta now secret).1.payload
        "exp" = some (.int e) := by
  constructor
  · rfl
  · have hpay : ∀ e : Int,
        dictGet (Jwt.encode (dictSet data "exp" (.int e)) secret).payload "exp"
          = some (.int e) := by
      intro e
      simpa [Jwt.encode] using dictGet_dictSet_self data "exp" (.int e)
    unfold JwtHelper.create_access_token
    cases expires_delta with
    | none => exact ⟨_, hpay _⟩
    | some d =>
      dsimp only
      split
      · exact ⟨_, hpay _⟩
      · exact ⟨_, hpay _⟩

/-- C1 (counterexample): issuing over the empty claims dict with ttl 60 s and
immediately verifying does not return the original claims — the decoded
payload carries the added `exp` field, so it differs from the dict passed to
issue. -/
theorem C1_counterexample :
    JwtHelper.verify_token
        (JwtHelper.create_access_token [] (some 60) 0 "s").1 "s" 0
      = .ok [("exp", .int 60)]
    ∧ (([("exp", PyVal.int 60)] : PyDict) == ([] : PyDict)) = false := by
  constructor
  · rfl
  · rfl

/-- C1 (amended): for every claims dict and positive ttl, issue-then-verify
succeeds and returns the claims with the `exp` field set to `now + ttl`
added (Python `dict.update` semantics); on every key other than `"exp"` the
decoded payload agrees with the original claims. -/
theorem C1_issue_verify_roundtrip (claims : PyDict) (ttl now : Int)
    (secret : String) (h : 0 < ttl) :
    JwtHelper.verify_token
        (JwtHelper.create_access_token claims (some ttl) now secret).1 secret now
      = .ok (dictSet claims "exp" (.int (now + ttl)))
    ∧ ∀ k : String, k ≠ "exp" →
        dictGet (dictSet claims "exp" (.int (now + ttl))) k = dictGet claims k := by
  constructor
  · have hd : ttl ≠ 0 := by omega
    unfold JwtHelper.verify_token JwtHelper.create_access_token
    dsimp only
    rw [if_pos hd]
    rw [Jwt.decode_encode]
    rw [dictGet_dictSet_self]
    dsimp only
    rw [if_neg (by omega)]
  · intro k hk
    exact dictGet_dictSet_other claims "exp" k (.int (now + ttl)) hk

/-- Witness for C1 (amended) at claims `{"sub": "1"}`, ttl 60 s, now 0,
secret `"k"`. -/
theorem C1_issue_verify_roundtrip_witness :
    (0 : Int) < 60
    ∧ JwtHelper.verify_token
        (JwtHelper.create_access_token [("sub", PyVal.str "1")] (some 60) 0 "k").1 "k" 0
      = .ok (dictSet [("sub", PyVal.str "1")] "exp" (.int (0 + 60)))
    ∧ dictGet (dictSet [("sub", PyVal.str "1")] "exp" (.int (0 + 60))) "sub"
      = dictGet [("sub", PyVal.str "1")] "sub" :=
  ⟨by decide,
    (C1_issue_verify_roundtrip [("sub", PyVal.str "1")] 60 0 "k" (by decide)).1,
    (C1_issue_verify_roundtrip [("sub", PyVal.str "1")] 60 0 "k" (by decide)).2
      "sub" (by decide)⟩

/-- C3: a token issued with ttl = -1 minute (expiry already past) fails
`verify_token` with the expired failure; the same token with its signature
bit-flipped fails with the invalid failure and never yields claims; both
failures carry the status of `ErrorCatalog.get_error "AUTH_001"`, namely 401,
and are distinguished only by their message. -/
theorem C3_verify_rejects_expired_and_tampered (claims : PyDict)
    (secret : String) (now : Int) :
    (AppMain.verify_token
        (JwtHelper.create_access_token claims (some (-60)) now secret).1
        secret now
      = .error ⟨(ErrorCatalog.get_error "AUTH_001").code, "Token has expired"⟩)
    ∧ (∀ tok : Jwt.Token,
        tok = (JwtHelper.create_access_token claims (some 1800) now secret).1 →
        AppMain.verify_token { tok with sig := tok.sig ^^^ 1 } secret now
          = .error ⟨(ErrorCatalog.get_error "AUTH_001").code, "Invalid token"⟩)
    ∧ (ErrorCatalog.get_error "AUTH_001").code = 401
    ∧ "Token has expired" ≠ "Invalid token" := by
  refine ⟨?_, ?_, rfl, by simp⟩
  · have hdec : Jwt.decode
        (JwtHelper.create_access_token claims (some (-60)) now secret).1
        secret now = .expired := by
      unfold JwtHelper.create_access_token
      dsimp only
      rw [if_pos (by norm_num)]
      rw [Jwt.decode_encode]
      rw [dictGet_dictSet_self]
      dsimp only
      rw [if_pos (by omega)]
    unfold AppMain.verify_token
    rw [hdec]
  · intro tok htok
    have hsig : ({ tok with sig := tok.sig ^^^ 1 } : Jwt.Token).sig
        ≠ Jwt.macSign secret ({ tok with sig := tok.sig ^^^ 1 } : Jwt.Token).payload := by
      have hmac : Jwt.macSign secret tok.payload = tok.sig := by
        rw [htok]
        rfl
      simpa [hmac] using Nat.xor_one_ne tok.sig
    have hdec : Jwt.decode { tok with sig := tok.sig ^^^ 1 } secret now
        = .invalid := by
      unfold Jwt.decode
      rw [if_pos hsig]
    unfold AppMain.verify_token
    rw [hdec]

/-- Witness for C3 at empty claims, secret `"s"`, time 0, with the tampered
token written out concretely. -/
theorem C3_verify_rejects_expired_and_tampered_witness :
    AppMain.verify_token
        (JwtHelper.create_access_token [] (some (-60)) 0 "s").1 "s" 0
      = .error ⟨(ErrorCatalog.get_error "AUTH_001").code, "Token has expired"⟩
    ∧ AppMain.verify_token
        { (JwtHelper.create_access_token [] (some 1800) 0 "s").1 with
          sig := (JwtHelper.create_access_token [] (some 1800) 0 "s").1.sig ^^^ 1 }
        "s" 0
      = .error ⟨(ErrorCatalog.get_error "AUTH_001").code, "Invalid token"⟩ :=
  ⟨(C3_verify_rejects_expired_and_tampered [] "s" 0).1,
   (C3_verify_rejects_expired_and_tampered [] "s" 0).2.1
     (JwtHelper.create_access_token [] (some 1800) 0 "s").1 rfl⟩

/-- C5 (counterexample): with a store holding alice at phone `+21611111111`,
registering bob with a fresh username but the same phone does not fail with
`USER_001`/400 — the handler checks only the username, so the request reaches
the store and dies on its uniqueness constraint. -/
theorem C5_counterexample :
    Auth.register
        [⟨1, "alice", "+21611111111", Auth.hash_password 7 "secret1", "citizen"⟩]
        ⟨"bob", "+21611111111", "secret2", "citizen"⟩ 9 2
      = .storeError
    ∧ (Auth.RegOutcome.storeError
        == Auth.RegOutcome.httpError ⟨(ErrorCatalog.get_error "USER_001").code,
            (ErrorCatalog.get_error "USER_001").message⟩) = false := by
  constructor
  · rfl
  · rfl

/-- C5 (amended): a duplicate username fails with `USER_001` mapped to 400 and
stores nothing; a fresh username with a fresh phone stores the new credential;
a duplicate phone under a fresh username is not surfaced as `USER_001`/400 —
it fails at the store's uniqueness constraint (still storing nothing). -/
theorem C5_register_outcomes (db : List Auth.UserRec) (req : Auth.RegisterReq)
    (salt newId : Nat) :
    ((∃ u ∈ db, u.username = req.username) →
      Auth.register db req salt newId = .httpError ⟨400, "User already exists"⟩)
    ∧ ((∀ u ∈ db, u.username ≠ req.username) → (∀ u ∈ db, u.phone ≠ req.phone) →
      Auth.register db req salt newId =
        .created
          (db ++ [⟨newId, req.username, req.phone,
            Auth.hash_password salt req.password, req.role⟩])
          ⟨newId, req.username, req.phone,
            Auth.hash_password salt req.password, req.role⟩)
    ∧ ((∀ u ∈ db, u.username ≠ req.username) → (∃ u ∈ db, u.phone = req.phone) →
      Auth.register db req salt newId = .storeError) := by
  refine ⟨?_, ?_, ?_⟩
  · intro hdup
    have hany : db.any (fun u => u.username == req.username) = true := by
      rw [List.any_eq_true]
      obtain ⟨u, hu, he⟩ := hdup
      exact ⟨u, hu, by simp [he]⟩
    unfold Auth.register
    rw [if_pos hany]
    rfl
  · intro hname hphone
    have hanyn : db.any (fun u => u.username == req.username) = false := by
      rw [List.any_eq_false]
      intro u hu
      simp [hname u hu]
    have hanyp : db.any (fun u => u.phone == req.phone) = false := by
      rw [List.any_eq_false]
      intro u hu
      simp [hphone u hu]
    unfold Auth.register
    rw [if_neg (by simp [hanyn]), if_neg (by simp [hanyp])]
  · intro hname hdup
    have hanyn : db.any (fun u => u.username == req.username) = false := by
      rw [List.any_eq_false]
      intro u hu
      simp [hname u hu]
    have hanyp : db.any (fun u => u.phone == req.phone) = true := by
      rw [List.any_eq_true]
      obtain ⟨u, hu, he⟩ := hdup
      exact ⟨u, hu, by simp [he]⟩
    unfold Auth.register
    rw [if_neg (by simp [hanyn]), if_pos hanyp]

/-- Witness for C5 (amended): duplicate username rejected, fresh
username/phone stored, at concrete one-row stores. -/
theorem C5_register_outcomes_witness :
    (∃ u ∈ [(⟨1, "alice", "+21611111111", Auth.hash_password 7 "secret1",
        "citizen"⟩ : Auth.UserRec)], u.username = "alice")
    ∧ Auth.register
        [⟨1, "alice", "+21611111111", Auth.hash_password 7 "secret1", "citizen"⟩]
        ⟨"alice", "+21622222222", "secret2", "citizen"⟩ 9 2
      = .httpError ⟨400, "User already exists"⟩
    ∧ Auth.register
        [⟨1, "alice", "+21611111111", Auth.hash_password 7 "secret1", "citizen"⟩]
        ⟨"bob", "+21622222222", "secret2", "citizen"⟩ 9 2
      = .created
          [⟨1, "alice", "+21611111111", Auth.hash_password 7 "secret1", "citizen"⟩,
           ⟨2, "bob", "+21622222222", Auth.hash_password 9 "secret2", "citizen"⟩]
          ⟨2, "bob", "+21622222222", Auth.hash_password 9 "secret2", "citizen"⟩
    ∧ Auth.register
        [⟨1, "alice", "+21611111111", Auth.hash_password 7 "secret1", "citizen"⟩]
        ⟨"bob", "+21611111111", "secret2", "citizen"⟩ 9 2
      = .storeError :=
  ⟨⟨⟨1, "alice", "+21611111111", Auth.hash_password 7 "secret1", "citizen"⟩,
      by simp, rfl⟩,
    (C5_register_outcomes
      [⟨1, "alice", "+21611111111", Auth.hash_password 7 "secret1", "citizen"⟩]
      ⟨"alice", "+21622222222", "secret2", "citizen"⟩ 9 2).1
      ⟨⟨1, "alice", "+21611111111", Auth.hash_password 7 "secret1", "citizen"⟩,
        by simp, rfl⟩,
    (C5_register_outcomes
      [⟨1, "alice", "+21611111111", Auth.hash_password 7 "secret1", "citizen"⟩]
      ⟨"bob", "+21622222222", "secret2", "citizen"⟩ 9 2).2.1
      (by intro u hu; simp at hu; simp [hu]) (by intro u hu; simp at hu; simp [hu]),
    (C5_register_outcomes
      [⟨1, "alice", "+21611111111", Auth.hash_password 7 "secret1", "citizen"⟩]
      ⟨"bob", "+21611111111", "secret2", "citizen"⟩ 9 2).2.2
      (by intro u hu; simp at hu; simp [hu])
      ⟨⟨1, "alice", "+21611111111", Auth.hash_password 7 "secret1", "citizen"⟩,
        by simp, rfl⟩⟩

/-- C6: if the username is absent from the store, or present but the password
does not verify against the stored hash, login fails with the
`ErrorCatalog.get_error "AUTH_001"` error — status 401 and the identical
generic message in both cases; if the credentials verify, login returns the
access token minted over `{sub, username, role}` with `token_type`
`"bearer"`. -/
theorem C6_login_outcomes (db : List Auth.UserRec) (cred : Auth.LoginReq)
    (now : Int) (secret : String) :
    (db.find? (fun u => u.username == cred.username) = none →
      Auth.login db cred now secret = .error ⟨401, "Invalid credentials"⟩)
    ∧ (∀ u, db.find? (fun u => u.username == cred.username) = some u →
        Auth.verify_password cred.password u.password_hash = false →
        Auth.login db cred now secret = .error ⟨401, "Invalid credentials"⟩)
    ∧ (∀ u, db.find? (fun u => u.username == cred.username) = some u →
        Auth.verify_password cred.password u.password_hash = true →
        Auth.login db cred now secret = .ok
          ⟨(JwtHelper.create_access_token
              [("sub", .str (toString u.id)), ("username", .str u.username),
               ("role", .str u.role)]
              (some (JwtHelper.ACCESS_TOKEN_EXPIRE_MINUTES * 60)) now secret).1,
            "bearer"⟩)
    ∧ ErrorCatalog.get_error "AUTH_001" = ⟨401, "Invalid credentials"⟩ := by
  refine ⟨?_, ?_, ?_, rfl⟩
  · intro hnone
    unfold Auth.login
    rw [hnone]
    rfl
  · intro u hfind hver
    unfold Auth.login
    rw [hfind]
    dsimp only
    rw [if_neg (by simp [hver])]
    rfl
  · intro u hfind hver
    unfold Auth.login
    rw [hfind]
    dsimp only
    rw [if_pos hver]

/-- Witness for C6 at a one-row store holding alice: unknown user, wrong
password, and correct password. -/
theorem C6_login_outcomes_witness :
    Auth.login [⟨1, "alice", "+21611111111", Auth.hash_password 7 "secret1",
        "citizen"⟩] ⟨"mallory", "secret1"⟩ 0 "k"
      = .error ⟨401, "Invalid credentials"⟩
    ∧ Auth.login [⟨1, "alice", "+21611111111", Auth.hash_password 7 "secret1",
        "citizen"⟩] ⟨"alice", "wrong1"⟩ 0 "k"
      = .error ⟨401, "Invalid credentials"⟩
    ∧ Auth.login [⟨1, "alice", "+21611111111", Auth.hash_password 7 "secret1",
        "citizen"⟩] ⟨"alice", "secret1"⟩ 0 "k"
      = .ok ⟨(JwtHelper.create_access_token
            [("sub", .str "1"), ("username", .str "alice"), ("role", .str "citizen")]
            (some (JwtHelper.ACCESS_TOKEN_EXPIRE_MINUTES * 60)) 0 "k").1,
          "bearer"⟩ :=
  ⟨(C6_login_outcomes [⟨1, "alice", "+21611111111", Auth.hash_password 7 "secret1",
      "citizen"⟩] ⟨"mallory", "secret1"⟩ 0 "k").1 (by decide),
   (C6_login_outcomes [⟨1, "alice", "+21611111111", Auth.hash_password 7 "secret1",
      "citizen"⟩] ⟨"alice", "wrong1"⟩ 0 "k").2.1
      ⟨1, "alice", "+21611111111", Auth.hash_password 7 "secret1", "citizen"⟩
      (by decide) (by decide),
   (C6_login_outcomes [⟨1, "alice", "+21611111111", Auth.hash_password 7 "secret1",
      "citizen"⟩] ⟨"alice", "secret1"⟩ 0 "k").2.2.1
      ⟨1, "alice", "+21611111111", Auth.hash_password 7 "secret1", "citizen"⟩
      (by decide) (by decide)⟩

theorem matchDigitsEnd_iff (n : Nat) (l : List Char) :
    Schemas.matchDigitsEnd l n = true ↔
      ∃ d r, l = d ++ r ∧ d.length = n ∧ d.all Schemas.pyIsDigit = true
        ∧ (r = [] ∨ r = ['\n']) := by
  induction n generalizing l with
  | zero =>
    constructor
    · intro h
      refine ⟨[], l, rfl, rfl, rfl, ?_⟩
      unfold Schemas.matchDigitsEnd at h
      simpa using h
    · rintro ⟨d, r, hl, hd, -, hr⟩
      have hdn : d = [] := List.length_eq_zero.mp hd
      subst hdn
      simp only [List.nil_append] at hl
      subst hl
      unfold Schemas.matchDigitsEnd
      rcases hr with h | h <;> simp [h]
  | succ n ih =>
    cases l with
    | nil =>
      constructor
      · intro h
        simp [Schemas.matchDigitsEnd] at h
      · rintro ⟨d, r, hl, hd, -, -⟩
        cases d with
        | nil => simp at hd
        | cons a t => simp at hl
    | cons c cs =>
      constructor
      · intro h
        unfold Schemas.matchDigitsEnd at h
        rw [Bool.and_eq_true] at h
        obtain ⟨d, r, hl, hd, hall, hr⟩ := (ih cs).mp h.2
        refine ⟨c :: d, r, by simp [hl], by simp [hd], ?_, hr⟩
        simp only [List.all_cons, Bool.and_eq_true]
        exact ⟨h.1, hall⟩
      · rintro ⟨d, r, hl, hd, hall, hr⟩
        cases d with
        | nil => simp at hd
        | cons a t =>
          simp only [List.cons_append, List.cons.injEq] at hl
          obtain ⟨hca, hcs⟩ := hl
          simp only [List.all_cons, Bool.and_eq_true] at hall
          simp only [List.length_cons, Nat.succ.injEq] at hd
          unfold Schemas.matchDigitsEnd
          rw [Bool.and_eq_true]
          refine ⟨by rw [hca]; exact hall.1, ?_⟩
          exact (ih cs).mpr ⟨t, r, hcs, hd, hall.2, hr⟩

theorem pyPhoneMatch_iff (l : List Char) :
    Schemas.pyPhoneMatch l = true ↔
      ∃ d : List Char, d.length = 8 ∧ d.all Schemas.pyIsDigit = true ∧
        (l = ['+', '2', '1', '6'] ++ d ∨ l = ['+', '2', '1', '6'] ++ d ++ ['\n']) := by
  constructor
  · intro h
    match l, h with
    | c1 :: c2 :: c3 :: c4 :: rest, h =>
      unfold Schemas.pyPhoneMatch at h
      simp only [Bool.and_eq_true, beq_iff_eq] at h
      obtain ⟨⟨⟨⟨h1, h2⟩, h3⟩, h4⟩, hm⟩ := h
      obtain ⟨d, r, hl, hd, hall, hr⟩ := (matchDigitsEnd_iff 8 rest).mp hm
      subst h1; subst h2; subst h3; subst h4
      rcases hr with hr | hr
      · subst hr
        simp only [List.append_nil] at hl
        exact ⟨d, hd, hall, Or.inl (by rw [hl]; rfl)⟩
      · subst hr
        exact ⟨d, hd, hall, Or.inr (by rw [hl]; rfl)⟩
  · rintro ⟨d, hd, hall, hl | hl⟩
    · subst hl
      show Schemas.pyPhoneMatch ('+' :: '2' :: '1' :: '6' :: d) = true
      unfold Schemas.pyPhoneMatch
      simp only [Bool.and_eq_true, beq_iff_eq]
      refine ⟨by simp, ?_⟩
      exact (matchDigitsEnd_iff 8 d).mpr ⟨d, [], by simp, hd, hall, Or.inl rfl⟩
    · subst hl
      show Schemas.pyPhoneMatch ('+' :: '2' :: '1' :: '6' :: (d ++ ['\n'])) = true
      unfold Schemas.pyPhoneMatch
      simp only [Bool.and_eq_true, beq_iff_eq]
      refine ⟨by simp, ?_⟩
      exact (matchDigitsEnd_iff 8 (d ++ ['\n'])).mpr
        ⟨d, ['\n'], rfl, hd, hall, Or.inr rfl⟩

/-- C8 (counterexample): two accepted strings that are not of the claimed
shape `+216` followed by exactly eight digits — `"+21612345678\n"` (eight
digits then a trailing newline: the `$` anchor of Python `re.match` also
matches just before a newline that ends the string), and `"+216٠١٢٣٤٥٦٧"`
(eight Arabic-Indic digits: the `str`-pattern `\d` matches every Unicode
decimal digit, not only ASCII). -/
theorem C8_counterexample :
    Schemas.validate_phone "+21612345678\n" = .ok "+21612345678\n"
    ∧ Schemas.specPhoneShape "+21612345678\n" = false
    ∧ Schemas.validate_phone "+216٠١٢٣٤٥٦٧" = .ok "+216٠١٢٣٤٥٦٧"
    ∧ Schemas.specPhoneShape "+216٠١٢٣٤٥٦٧" = false :=
  ⟨rfl, rfl, rfl, rfl⟩

/-- C8 (amended): `validate_phone` accepts a phone string iff it is the
literal `+216` followed by exactly eight Unicode decimal digits (Python
`\d`, category `Nd` — a superset of the ASCII digits), optionally followed
by one trailing newline (the `$` anchor of Python `re.match` also matches
before a final newline); any other shape is rejected with the `ValueError`
the framework surfaces as 422. -/
theorem C8_validate_phone_shape (s : String) :
    Schemas.validate_phone s = .ok s ↔
      ∃ d : List Char, d.length = 8 ∧ d.all Schemas.pyIsDigit = true ∧
        (s.data = ['+', '2', '1', '6'] ++ d
          ∨ s.data = ['+', '2', '1', '6'] ++ d ++ ['\n']) := by
  constructor
  · intro hok
    unfold Schemas.validate_phone at hok
    by_cases h : Schemas.pyPhoneMatch s.data
    · exact (pyPhoneMatch_iff s.data).mp h
    · rw [if_neg h] at hok
      exact absurd hok (by simp)
  · intro hex
    have h := (pyPhoneMatch_iff s.data).mpr hex
    unfold Schemas.validate_phone
    rw [if_pos h]
